import Mathlib

/-!
Shallow embedding of the two utility modules of the `effect-crashcourse`
repository: `src/utils/effectify.ts` (callback-to-effect adapter) and
`src/utils/decode.ts` (schema-decode wrapper), together with the small
slice of the external effect/schema library behaviour those modules rely
on, and proofs of the specified properties.
-/

/-- A JavaScript runtime value, as far as the utilities observe it:
`null`, `undefined`, booleans, numbers (modelled as integers), strings,
and plain objects as association lists of fields. -/
inductive JSValue : Type where
  | vNull : JSValue
  | vUndefined : JSValue
  | vBool (b : Bool) : JSValue
  | vNum (n : Int) : JSValue
  | vStr (s : String) : JSValue
  | vObj (fields : List (String × JSValue)) : JSValue
deriving Repr

/-- JavaScript truthiness of a value: `null`, `undefined`, `false`, `0`
and the empty string are falsy, everything else (in this value model)
is truthy.  This is the test performed by `if (error)` in
`src/utils/effectify.ts`. -/
def truthy : JSValue → Bool
  | .vNull => false
  | .vUndefined => false
  | .vBool b => b
  | .vNum n => n != 0
  | .vStr s => s != ""
  | .vObj _ => true

/-- Whether a JavaScript value carries a discriminant `_tag` field, the
shape the spec calls a "tagged value". -/
def hasDiscriminantTag : JSValue → Bool
  | .vObj fields => (fields.lookup "_tag").isSome
  | _ => false

/-- The slice of the external effect type the utilities construct:
an already-determined success (`Effect.succeed` in the source) or an
already-determined failure (`Effect.fail`). -/
inductive Effect (E : Type) (A : Type) : Type where
  | succeed (a : A) : Effect E A
  | fail (e : E) : Effect E A
deriving Repr

/-- `Effect.sync(thunk)`: suspends a pure computation; running it yields
the thunk's value as a success. -/
def Effect.sync {E A : Type} (thunk : Unit → A) : Effect E A :=
  .succeed (thunk ())

/-- `Effect.absolve`: submerges an `Either` sitting in the success
channel into the failure/success channels of the effect. -/
def Effect.absolve {E A : Type} : Effect E (Except E A) → Effect E A
  | .succeed (.ok a) => .succeed a
  | .succeed (.error e) => .fail e
  | .fail e => .fail e

/-- The observable outcome of executing an effect. -/
inductive RunResult (E : Type) (A : Type) : Type where
  | success (a : A) : RunResult E A
  | failure (e : E) : RunResult E A
deriving Repr

/-- Executing one of the effects the utilities build: a success
constructor yields a success outcome and a failure constructor a
failure outcome (the two channels of the external runtime). -/
def Effect.run {E A : Type} : Effect E A → RunResult E A
  | .succeed a => .success a
  | .fail e => .failure e

/-- A Node-style callback-taking function, observed through the single
invocation of its final callback: given the leading arguments, the pair
`(error, data)` it passes to `cb`. -/
def CallbackFn : Type := List JSValue → JSValue × JSValue

/-- Embedding of `effectify` (src/utils/effectify.ts, runtime clause):
call the wrapped function with the leading arguments and a callback;
when the callback's `error` argument is truthy (`if (error)`), resume
with `Effect.fail(error)`, otherwise resume with `Effect.succeed(data)`.
`Effect.async` with a single synchronous callback invocation is modelled
as the effect passed to `resume`. -/
def effectify (fn : CallbackFn) : List JSValue → Effect JSValue JSValue :=
  fun args =>
    match fn args with
    | (error, data) =>
      if truthy error then Effect.fail error else Effect.succeed data

/-- Embedding of `effectifyMapError` (src/utils/effectify.ts, runtime
clause): identical to `effectify` except that a truthy callback error is
first passed through `mapError` before being carried as the failure. -/
def effectifyMapError {E2 : Type} (fn : CallbackFn) (mapError : JSValue → E2) :
    List JSValue → Effect E2 JSValue :=
  fun args =>
    match fn args with
    | (error, data) =>
      if truthy error then Effect.fail (mapError error) else Effect.succeed data

example : effectify (fun _ => (JSValue.vNull, JSValue.vNum 5)) [] =
    Effect.succeed (JSValue.vNum 5) := rfl

example : effectify (fun _ => (JSValue.vStr "boom", JSValue.vUndefined)) [] =
    Effect.fail (JSValue.vStr "boom") := rfl

example : effectify (fun _ => (JSValue.vNum 0, JSValue.vUndefined)) [] =
    Effect.succeed JSValue.vUndefined := rfl

mutual
/-- Model of the external schema library's schema AST, restricted to the
combinators the examples decode with: primitive schemas and structs of
named fields. -/
inductive Schema : Type where
  | number : Schema
  | string : Schema
  | boolean : Schema
  | struct (fields : Fields) : Schema

/-- The field list of a struct schema (a mutual inductive rather than a
nested `List` so that the decoder is structurally recursive). -/
inductive Fields : Type where
  | nil : Fields
  | cons (key : String) (s : Schema) (rest : Fields) : Fields
end

/-- Whether a struct schema declares a field of the given name. -/
def Fields.hasKey : Fields → String → Bool
  | .nil, _ => false
  | .cons k _ rest, key => k == key || rest.hasKey key

/-- The field list of a struct schema as a plain list. -/
def Fields.toList : Fields → List (String × Schema)
  | .nil => []
  | .cons k s rest => (k, s) :: rest.toList

/-- Validation errors for object keys not declared by the struct schema
(only reported when `isUnexpectedAllowed` is false). -/
def unexpectedErrors (fields : Fields) (obj : List (String × JSValue)) :
    List String :=
  obj.filterMap fun kv =>
    if fields.hasKey kv.1 then none else some (kv.1 ++ " is unexpected")

mutual
/-- Model of the external schema library's validator: the list of ALL
constraint violations of the input against the schema, in declaration
order.  `ua` is the `isUnexpectedAllowed` option. -/
def checkSchema (ua : Bool) : Schema → JSValue → List String
  | .number, .vNum _ => []
  | .number, _ => ["Expected number"]
  | .string, .vStr _ => []
  | .string, _ => ["Expected string"]
  | .boolean, .vBool _ => []
  | .boolean, _ => ["Expected boolean"]
  | .struct fields, .vObj obj =>
      checkFields ua fields obj ++
        (if ua then [] else unexpectedErrors fields obj)
  | .struct _, _ => ["Expected a generic object"]

/-- Violations of an object against each declared field of a struct
schema, concatenated in declaration order: a missing key is one
violation, a present key contributes the violations of its value
against the field's schema, prefixed with the key. -/
def checkFields (ua : Bool) : Fields → List (String × JSValue) → List String
  | .nil, _ => []
  | .cons k s rest, obj =>
      (match obj.lookup k with
       | none => [k ++ " is missing"]
       | some fv => (checkSchema ua s fv).map fun e => k ++ "." ++ e) ++
      checkFields ua rest obj
end

/-- The violations one declared field contributes, in isolation. -/
def fieldViolations (ua : Bool) (k : String) (s : Schema)
    (obj : List (String × JSValue)) : List String :=
  match obj.lookup k with
  | none => [k ++ " is missing"]
  | some fv => (checkSchema ua s fv).map fun e => k ++ "." ++ e

/-- The decode options the repository passes at every call site of the
schema library (src/utils/decode.ts): `allErrors: true,
isUnexpectedAllowed: true`. -/
structure ParseOptions where
  allErrors : Bool
  isUnexpectedAllowed : Bool

/-- Model of the external `Schema.decodeEither`: validates the input
under the given options; with `allErrors` false only the first
violation is reported, with `allErrors` true every violation is.  On
success the parsed value is the input itself (the schemas modelled
perform no transformation). -/
def schemaDecodeEitherLib (schema : Schema) (input : JSValue)
    (opts : ParseOptions) : Except (List String) JSValue :=
  let errsAll := checkSchema opts.isUnexpectedAllowed schema input
  match (if opts.allErrors then errsAll else errsAll.take 1) with
  | [] => .ok input
  | es => .error es

/-- The error value of the external `Schema.parseEither`: a record
carrying the list of violations in its `errors` field. -/
structure ParseFailure where
  errors : List String

/-- Model of the external `Schema.parseEither` (the newer name of the
same decoding entry point): like `schemaDecodeEitherLib` but wrapping
the violations in a `ParseFailure` record. -/
def schemaParseEitherLib (schema : Schema) (input : JSValue)
    (opts : ParseOptions) : Except ParseFailure JSValue :=
  (schemaDecodeEitherLib schema input opts).mapError ParseFailure.mk

/-- Model of the external `formatErrors` (TreeFormatter): a single
human-readable message listing every violation, one per line. -/
def formatErrors (errs : List String) : String :=
  String.intercalate "\x0a" errs

/-- Embedding of the `DecodeError` class (src/utils/decode.ts): a
payload `error` string; the discriminant `_tag` field is the constant
"DecodeError" on every instance, modelled by the projection
`DecodeError.tag`. -/
structure DecodeError where
  error : String
deriving Repr, DecidableEq

/-- The `_tag` discriminant field of `DecodeError`, identically
"DecodeError". -/
def DecodeError.tag (_ : DecodeError) : String := "DecodeError"

/-- Embedding of `decodeEither` (src/utils/decode.ts): call the schema
library's decode with `allErrors: true, isUnexpectedAllowed: true` and
map the error side to a `DecodeError` carrying the formatted message. -/
def decodeEither (schema : Schema) : JSValue → Except DecodeError JSValue :=
  fun input =>
    (schemaDecodeEitherLib schema input ⟨true, true⟩).mapError
      fun es => DecodeError.mk (formatErrors es)

/-- Embedding of `decodeAbsolve` (src/utils/decode.ts):
`Effect.absolve(Effect.sync(() => decodeEither(schema)(input)))`. -/
def decodeAbsolve (schema : Schema) : JSValue → Effect DecodeError JSValue :=
  fun input => Effect.absolve (Effect.sync fun _ => decodeEither schema input)

/-- Embedding of `parseEither` (src/utils/decode.ts, later revision):
call the schema library's parse with `allErrors: true,
isUnexpectedAllowed: true` and map the error side to a `DecodeError`
carrying the message formatted from the failure's `errors` field. -/
def parseEither (schema : Schema) : JSValue → Except DecodeError JSValue :=
  fun input =>
    (schemaParseEitherLib schema input ⟨true, true⟩).mapError
      fun pf => DecodeError.mk (formatErrors pf.errors)

example : decodeEither .number (.vNum 3) = .ok (.vNum 3) := rfl

example : decodeEither .number (.vStr "x") =
    .error (DecodeError.mk "Expected number") := rfl

example :
    parseEither (.struct (.cons "a" .number (.cons "b" .string .nil)))
      (.vObj [("a", .vStr "no"), ("b", .vNum 1)]) =
    .error (DecodeError.mk "a.Expected number\x0ab.Expected string") := rfl

/-! ## Theorems about the callback-to-effect adapter -/

/-- C2: for every wrapped function that invokes its callback as
`cb(null, V)`, the function produced by `effectify`, applied to the same
leading arguments, yields an effect that succeeds with exactly `V`. -/
theorem effectify_succeeds_on_null_error (fn : CallbackFn)
    (args : List JSValue) (V : JSValue)
    (h : fn args = (JSValue.vNull, V)) :
    effectify fn args = Effect.succeed V := by
  unfold effectify
  rw [h]
  simp [truthy]

/-- C2 witness: a wrapped function that calls back with `(null, 5)`
is adapted to an effect succeeding with `5`. -/
theorem effectify_succeeds_on_null_error_witness :
    (fun _ => (JSValue.vNull, JSValue.vNum 5) : CallbackFn) [] =
      (JSValue.vNull, JSValue.vNum 5) ∧
    effectify (fun _ => (JSValue.vNull, JSValue.vNum 5)) [] =
      Effect.succeed (JSValue.vNum 5) :=
  ⟨rfl, effectify_succeeds_on_null_error _ [] (JSValue.vNum 5) rfl⟩

/-- C1 counterexample: the callback error `0` is non-null, yet the
adapted effect succeeds (with the `undefined` data argument) instead of
failing with `0`, because the runtime clause tests truthiness, not
null-ness. -/
theorem effectify_counterexample_falsy_nonnull_error :
    JSValue.vNum 0 ≠ JSValue.vNull ∧
    effectify (fun _ => (JSValue.vNum 0, JSValue.vUndefined)) [] =
      Effect.succeed JSValue.vUndefined ∧
    effectify (fun _ => (JSValue.vNum 0, JSValue.vUndefined)) [] ≠
      Effect.fail (JSValue.vNum 0) :=
  ⟨fun h => JSValue.noConfusion h, rfl, fun h => Effect.noConfusion h⟩

/-- C1 (amended): for every wrapped function that invokes its callback
as `cb(E, undefined)` with a TRUTHY `E`, the effect produced by
`effectify` fails with exactly `E`, and the effect produced by
`effectifyMapError` with transform `m` fails with `m(E)` (the transform
applied before the failure is carried). -/
theorem effectify_fails_with_truthy_error (fn : CallbackFn)
    (m : JSValue → JSValue) (args : List JSValue) (E : JSValue)
    (h : fn args = (E, JSValue.vUndefined)) (ht : truthy E = true) :
    effectify fn args = Effect.fail E ∧
    effectifyMapError fn m args = Effect.fail (m E) := by
  unfold effectify effectifyMapError
  rw [h]
  simp [ht]

/-- C1 (amended) witness: a wrapped function calling back with the
truthy error string "err"; `effectify` fails with it verbatim and
`effectifyMapError` with the transform's image of it. -/
theorem effectify_fails_with_truthy_error_witness :
    (fun _ => (JSValue.vStr "err", JSValue.vUndefined) : CallbackFn) [] =
      (JSValue.vStr "err", JSValue.vUndefined) ∧
    truthy (JSValue.vStr "err") = true ∧
    (effectify (fun _ => (JSValue.vStr "err", JSValue.vUndefined)) [] =
      Effect.fail (JSValue.vStr "err") ∧
    effectifyMapError (fun _ => (JSValue.vStr "err", JSValue.vUndefined))
        (fun e => JSValue.vObj [("_tag", JSValue.vStr "MappedError"), ("cause", e)]) [] =
      Effect.fail (JSValue.vObj
        [("_tag", JSValue.vStr "MappedError"), ("cause", JSValue.vStr "err")])) :=
  ⟨rfl, rfl,
    effectify_fails_with_truthy_error _
      (fun e => JSValue.vObj [("_tag", JSValue.vStr "MappedError"), ("cause", e)])
      [] (JSValue.vStr "err") rfl rfl⟩

/-- C9: the adapted functions decide success versus failure by
JavaScript truthiness of the callback's error argument, not by a null
check: for every wrapped function invoking `cb(E, V)` with a falsy but
non-null `E`, both `effectify` and `effectifyMapError` produce an
effect succeeding with `V` instead of failing. -/
theorem effectify_decides_by_truthiness (fn : CallbackFn)
    (m : JSValue → JSValue) (args : List JSValue) (E V : JSValue)
    (h : fn args = (E, V)) (hfalsy : truthy E = false)
    (hnonnull : E ≠ JSValue.vNull) :
    effectify fn args = Effect.succeed V ∧
    effectifyMapError fn m args = Effect.succeed V := by
  unfold effectify effectifyMapError
  rw [h]
  simp [hfalsy]

/-- C9 witness: the falsy but non-null errors `0`, `""` and `false` all
make the adapted effect succeed with the data argument. -/
theorem effectify_decides_by_truthiness_witness :
    (effectify (fun _ => (JSValue.vNum 0, JSValue.vNum 7)) [] =
       Effect.succeed (JSValue.vNum 7) ∧
     effectifyMapError (fun _ => (JSValue.vNum 0, JSValue.vNum 7)) id [] =
       Effect.succeed (JSValue.vNum 7)) ∧
    (effectify (fun _ => (JSValue.vStr "", JSValue.vNum 8)) [] =
       Effect.succeed (JSValue.vNum 8)) ∧
    (effectify (fun _ => (JSValue.vBool false, JSValue.vNum 9)) [] =
       Effect.succeed (JSValue.vNum 9)) :=
  ⟨effectify_decides_by_truthiness _ id [] (JSValue.vNum 0) (JSValue.vNum 7)
      rfl rfl (fun h => JSValue.noConfusion h),
   (effectify_decides_by_truthiness _ id [] (JSValue.vStr "") (JSValue.vNum 8)
      rfl rfl (fun h => JSValue.noConfusion h)).1,
   (effectify_decides_by_truthiness _ id [] (JSValue.vBool false) (JSValue.vNum 9)
      rfl rfl (fun h => JSValue.noConfusion h)).1⟩

/-- C6 counterexample: `effectify` can fail with the untagged value
`42`: the failure it carries is the callback's error verbatim and
carries no discriminant `_tag` field. -/
theorem effectify_failure_untagged :
    effectify (fun _ => (JSValue.vNum 42, JSValue.vUndefined)) [] =
      Effect.fail (JSValue.vNum 42) ∧
    hasDiscriminantTag (JSValue.vNum 42) = false :=
  ⟨rfl, rfl⟩

/-! ## Theorems about the schema-decode wrapper -/

/-- At the repository's options (`isUnexpectedAllowed: true`), the
violations of an object input against a struct schema are exactly the
per-field violations. -/
theorem checkSchema_struct_allowUnexpected (fields : Fields)
    (obj : List (String × JSValue)) :
    checkSchema true (.struct fields) (.vObj obj) =
      checkFields true fields obj := by
  simp [checkSchema]

/-- The per-field violations are the concatenation, over every declared
field, of that field's violations computed in isolation: no field's
violations are dropped. -/
theorem checkFields_eq_flatMap (ua : Bool) :
    ∀ (fields : Fields) (obj : List (String × JSValue)),
      checkFields ua fields obj =
        (Fields.toList fields).flatMap
          fun ks => fieldViolations ua ks.1 ks.2 obj
  | .nil, _ => by simp [checkFields, Fields.toList]
  | .cons k s rest, obj => by
      simp [checkFields, Fields.toList, fieldViolations,
        checkFields_eq_flatMap ua rest obj]

/-- C4: for every schema and every input satisfying it, both decode
entry points return a success outcome whose value is the parsed input
unchanged. -/
theorem decode_valid_input_unchanged (s : Schema) (v : JSValue)
    (h : checkSchema true s v = []) :
    decodeEither s v = .ok v ∧ parseEither s v = .ok v := by
  unfold decodeEither parseEither schemaParseEitherLib schemaDecodeEitherLib
  simp [h, Except.mapError]

/-- C4 witness: a valid object input decodes to itself under both entry
points. -/
theorem decode_valid_input_unchanged_witness :
    checkSchema true (.struct (.cons "a" .number .nil))
      (.vObj [("a", JSValue.vNum 1)]) = [] ∧
    (decodeEither (.struct (.cons "a" .number .nil))
        (.vObj [("a", JSValue.vNum 1)]) =
      .ok (.vObj [("a", JSValue.vNum 1)]) ∧
     parseEither (.struct (.cons "a" .number .nil))
        (.vObj [("a", JSValue.vNum 1)]) =
      .ok (.vObj [("a", JSValue.vNum 1)])) :=
  ⟨rfl, decode_valid_input_unchanged _ _ rfl⟩

/-- C5: the decode wrapper is total with exactly two reachable
outcomes: for every schema and every input, each entry point yields
either a typed success or a failure carrying a `DecodeError` (whose
discriminant `_tag` field is "DecodeError"); no other outcome exists. -/
theorem decode_never_throws (s : Schema) (v : JSValue) :
    ((∃ a, decodeEither s v = .ok a) ∨
      (∃ e, decodeEither s v = .error e ∧ e.tag = "DecodeError")) ∧
    ((∃ a, parseEither s v = .ok a) ∨
      (∃ e, parseEither s v = .error e ∧ e.tag = "DecodeError")) ∧
    ((∃ a, (decodeAbsolve s v).run = .success a) ∨
      (∃ e, (decodeAbsolve s v).run = .failure e ∧ e.tag = "DecodeError")) := by
  refine ⟨?_, ?_, ?_⟩
  · cases hd : decodeEither s v with
    | ok a => exact .inl ⟨a, rfl⟩
    | error e => exact .inr ⟨e, rfl, rfl⟩
  · cases hp : parseEither s v with
    | ok a => exact .inl ⟨a, rfl⟩
    | error e => exact .inr ⟨e, rfl, rfl⟩
  · cases hd : decodeEither s v with
    | ok a =>
        refine .inl ⟨a, ?_⟩
        simp [decodeAbsolve, Effect.sync, Effect.absolve, Effect.run, hd]
    | error e =>
        refine .inr ⟨e, ?_, rfl⟩
        simp [decodeAbsolve, Effect.sync, Effect.absolve, Effect.run, hd]

/-- C7: decoding is deterministic, hence idempotent: two separate calls
of either entry point on the same schema and the same input yield
structurally equal success results. -/
theorem decode_idempotent (s : Schema) (v r1 r2 p1 p2 : JSValue)
    (h1 : decodeEither s v = .ok r1) (h2 : decodeEither s v = .ok r2)
    (h3 : parseEither s v = .ok p1) (h4 : parseEither s v = .ok p2) :
    r1 = r2 ∧ p1 = p2 := by
  rw [h1] at h2
  rw [h3] at h4
  exact ⟨Except.ok.inj h2, Except.ok.inj h4⟩

/-- C7 witness: decoding the valid input `3` against the number schema
twice yields the same success value both times. -/
theorem decode_idempotent_witness :
    decodeEither .number (.vNum 3) = .ok (.vNum 3) ∧
    parseEither .number (.vNum 3) = .ok (.vNum 3) ∧
    (JSValue.vNum 3 : JSValue) = JSValue.vNum 3 :=
  ⟨rfl, rfl,
    (decode_idempotent .number (.vNum 3) (.vNum 3) (.vNum 3) (.vNum 3) (.vNum 3)
      rfl rfl rfl rfl).1⟩

/-- C8: a `DecodeError` consists of the constant discriminant tag
"DecodeError" plus a free-form message payload, and is compared by
value: two `DecodeError` values built from the same message string are
equal. -/
theorem decodeError_value_semantics (m1 m2 : String) (h : m1 = m2) :
    DecodeError.mk m1 = DecodeError.mk m2 ∧
    (DecodeError.mk m1).tag = (DecodeError.mk m2).tag ∧
    (DecodeError.mk m1).tag = "DecodeError" ∧
    (DecodeError.mk m1).error = m1 := by
  subst h
  exact ⟨rfl, rfl, rfl, rfl⟩

/-- C8 witness: two `DecodeError` values built from the message "oops"
are equal, share the tag "DecodeError", and carry the message as
payload. -/
theorem decodeError_value_semantics_witness :
    "oops" = "oops" ∧
    (DecodeError.mk "oops" = DecodeError.mk "oops" ∧
     (DecodeError.mk "oops").tag = (DecodeError.mk "oops").tag ∧
     (DecodeError.mk "oops").tag = "DecodeError" ∧
     (DecodeError.mk "oops").error = "oops") :=
  ⟨rfl, decodeError_value_semantics "oops" "oops" rfl⟩

/-- C3: for an input violating several independent constraints of a
struct schema, both decode entry points return a single tagged
`DecodeError` whose message is formatted from the FULL violation list
(the repository passes `allErrors: true`), and that list contains every
individual field's violations, not just the first one encountered. -/
theorem decode_enumerates_all_violations (fields : Fields)
    (obj : List (String × JSValue))
    (h : checkFields true fields obj ≠ []) :
    (decodeEither (.struct fields) (.vObj obj) =
       .error (DecodeError.mk (formatErrors (checkFields true fields obj))) ∧
     parseEither (.struct fields) (.vObj obj) =
       .error (DecodeError.mk (formatErrors (checkFields true fields obj)))) ∧
    ∀ ks ∈ Fields.toList fields, ∀ e ∈ fieldViolations true ks.1 ks.2 obj,
      e ∈ checkFields true fields obj := by
  constructor
  · cases hc : checkFields true fields obj with
    | nil => exact absurd hc h
    | cons a as =>
        have hs : checkSchema true (.struct fields) (.vObj obj) = a :: as :=
          (checkSchema_struct_allowUnexpected fields obj).trans hc
        constructor
        · unfold decodeEither schemaDecodeEitherLib
          simp [hs, Except.mapError]
        · unfold parseEither schemaParseEitherLib schemaDecodeEitherLib
          simp [hs, Except.mapError]
  · intro ks hks e he
    rw [checkFields_eq_flatMap]
    exact List.mem_flatMap.mpr ⟨ks, hks, he⟩

/-- C3 witness: an object violating two independent constraints (field
"a" not a number, field "b" not a string) produces one `DecodeError`
whose message lists both violations, and each violation is in the
collected list. -/
theorem decode_enumerates_all_violations_witness :
    checkFields true (.cons "a" .number (.cons "b" .string .nil))
      [("a", JSValue.vStr "no"), ("b", JSValue.vNum 1)] ≠ [] ∧
    parseEither (.struct (.cons "a" .number (.cons "b" .string .nil)))
        (.vObj [("a", JSValue.vStr "no"), ("b", JSValue.vNum 1)]) =
      .error (DecodeError.mk "a.Expected number\x0ab.Expected string") ∧
    "a.Expected number" ∈ checkFields true
      (.cons "a" .number (.cons "b" .string .nil))
      [("a", JSValue.vStr "no"), ("b", JSValue.vNum 1)] ∧
    "b.Expected string" ∈ checkFields true
      (.cons "a" .number (.cons "b" .string .nil))
      [("a", JSValue.vStr "no"), ("b", JSValue.vNum 1)] :=
  ⟨by decide,
   (decode_enumerates_all_violations
      (.cons "a" .number (.cons "b" .string .nil))
      [("a", JSValue.vStr "no"), ("b", JSValue.vNum 1)] (by decide)).1.2,
   (decode_enumerates_all_violations
      (.cons "a" .number (.cons "b" .string .nil))
      [("a", JSValue.vStr "no"), ("b", JSValue.vNum 1)] (by decide)).2
     ("a", .number) (by simp [Fields.toList]) _ (by decide),
   (decode_enumerates_all_violations
      (.cons "a" .number (.cons "b" .string .nil))
      [("a", JSValue.vStr "no"), ("b", JSValue.vNum 1)] (by decide)).2
     ("b", .string) (by simp [Fields.toList]) _ (by decide)⟩

/-- C6 (amended): each utility has exactly one failure mode surfaced in
the failure channel, never thrown: every failure of the decode wrapper
is the tagged `DecodeError` built from the formatted violation list,
while every failure of `effectify` is the wrapped callback's truthy
error argument propagated verbatim — which need not carry a
discriminant tag field. -/
theorem utilities_failure_modes :
    (∀ (s : Schema) (v : JSValue) (e : DecodeError),
        decodeEither s v = .error e →
        e = DecodeError.mk (formatErrors (checkSchema true s v)) ∧
        e.tag = "DecodeError") ∧
    (∀ (s : Schema) (v : JSValue) (e : DecodeError),
        parseEither s v = .error e →
        e = DecodeError.mk (formatErrors (checkSchema true s v)) ∧
        e.tag = "DecodeError") ∧
    (∀ (fn : CallbackFn) (args : List JSValue) (e : JSValue),
        effectify fn args = Effect.fail e →
        e = (fn args).1 ∧ truthy e = true) := by
  refine ⟨?_, ?_, ?_⟩
  · intro s v e he
    unfold decodeEither schemaDecodeEitherLib at he
    cases hc : checkSchema true s v with
    | nil => simp [hc, Except.mapError] at he
    | cons a as =>
        simp [hc, Except.mapError] at he
        exact ⟨he.symm, rfl⟩
  · intro s v e he
    unfold parseEither schemaParseEitherLib schemaDecodeEitherLib at he
    cases hc : checkSchema true s v with
    | nil => simp [hc, Except.mapError] at he
    | cons a as =>
        simp [hc, Except.mapError] at he
        exact ⟨he.symm, rfl⟩
  · intro fn args e he
    unfold effectify at he
    cases hfa : fn args with
    | mk error data =>
        rw [hfa] at he
        by_cases ht : truthy error = true
        · simp [ht] at he
          simp [hfa, ← he, ht]
        · simp [ht] at he
  
/-- C6 (amended) witness: a failing decode of a string against the
number schema yields the tagged `DecodeError`, and an adapted callback
failing with the truthy string "e" propagates it verbatim. -/
theorem utilities_failure_modes_witness :
    decodeEither .number (.vStr "x") = .error (DecodeError.mk "Expected number") ∧
    (DecodeError.mk "Expected number" =
       DecodeError.mk (formatErrors (checkSchema true .number (.vStr "x"))) ∧
     (DecodeError.mk "Expected number").tag = "DecodeError") ∧
    effectify (fun _ => (JSValue.vStr "e", JSValue.vNull)) [] =
      Effect.fail (JSValue.vStr "e") ∧
    (JSValue.vStr "e" =
       ((fun _ => (JSValue.vStr "e", JSValue.vNull) : CallbackFn) []).1 ∧
     truthy (JSValue.vStr "e") = true) :=
  ⟨rfl,
   utilities_failure_modes.1 .number (.vStr "x")
     (DecodeError.mk "Expected number") rfl,
   rfl,
   utilities_failure_modes.2.2 (fun _ => (JSValue.vStr "e", JSValue.vNull)) []
     (JSValue.vStr "e") rfl⟩

/-- C10: the two decode entry points agree: running
`decodeAbsolve(S)(input)` succeeds with `v` exactly when
`decodeEither(S)(input)` is `Right(v)`, and fails with `e` exactly when
it is `Left(e)`, with the identical `DecodeError` value. -/
theorem decodeAbsolve_equiv_decodeEither (s : Schema) (v : JSValue) :
    (∀ a, (decodeAbsolve s v).run = .success a ↔ decodeEither s v = .ok a) ∧
    (∀ e, (decodeAbsolve s v).run = .failure e ↔ decodeEither s v = .error e) := by
  cases hd : decodeEither s v with
  | ok a0 =>
      constructor
      · intro a
        simp [decodeAbsolve, Effect.sync, Effect.absolve, Effect.run, hd]
      · intro e
        simp [decodeAbsolve, Effect.sync, Effect.absolve, Effect.run, hd]
  | error e0 =>
      constructor
      · intro a
        simp [decodeAbsolve, Effect.sync, Effect.absolve, Effect.run, hd]
      · intro e
        simp [decodeAbsolve, Effect.sync, Effect.absolve, Effect.run, hd]

/-- C10 witness: at the number schema and the input `3`, running the
absolve-based entry point succeeds with `3`, in agreement with
`decodeEither`. -/
theorem decodeAbsolve_equiv_decodeEither_witness :
    (decodeAbsolve .number (.vNum 3)).run = .success (.vNum 3) :=
  ((decodeAbsolve_equiv_decodeEither .number (.vNum 3)).1 (.vNum 3)).mpr rfl
